import Mathlib

/-!
Shallow embedding of the uptime-monitor engine:
* `supabase/functions/check-uptime/index.ts` — the prober (`checkWebsite`),
  the cycle driver (`performUptimeChecks`) and the HTTP `handler`;
* `src/components/WebsiteStatusCard.tsx` — the rolling-statistics helpers
  (`getUptimePercentage`, `getAverageResponseTime`);
* `src/components/UptimeChart.tsx` — the hourly bucketed series
  (`getChartData`).

Conventions of the embedding:
* JavaScript numbers that the code only ever uses as integers (millisecond
  timestamps, status codes, latencies, counts) are `Nat`/`Int`; exact
  rational identities replace float arithmetic where the code divides.
* The nondeterministic outside world (the result of `fetch`, the Supabase
  query outcomes, the wall clock) is passed in explicitly, so every source
  function becomes a total Lean function of code + environment.
* `Date#getHours`/`Date#getDate` are modelled for a runtime whose local
  timezone is UTC, via the standard civil-from-days calendar conversion.
-/

namespace UptimeMonitor

/-- The `status` column of `uptime_checks`: `'up' | 'down' | 'error'`. -/
inductive Status where
  | up
  | down
  | error
deriving DecidableEq, Repr

/-- A row of the `websites` table as the edge function sees it
(`select('*')`): the fields of the `Website` interface plus the
`is_active` column the query filters on. -/
structure Website where
  id : String
  name : String
  url : String
  check_interval : Nat
  is_active : Bool
deriving DecidableEq, Repr

/-- The `UptimeCheck` record built by `checkWebsite` (index.ts lines 16-22):
optional fields are `Option`. -/
structure UptimeCheck where
  website_id : String
  status : Status
  response_time : Option Nat
  status_code : Option Nat
  error_message : Option String
deriving DecidableEq, Repr

/-- Outcome of the `await fetch(...)` call inside `checkWebsite`:
either a completed `Response` (with its `ok` flag, `status` and
`statusText`), or a rejection with a JavaScript `Error` (carrying
`name` and `message` — the 30s timeout surfaces as `name = "AbortError"`),
or a rejection with a non-`Error` value. -/
inductive FetchOutcome where
  | completed (ok : Bool) (status : Nat) (statusText : String)
  | threwError (name : String) (message : String)
  | threwNonError
deriving Repr

/-- Function `checkWebsite` (index.ts lines 35-91). `elapsedMs` is the value of
`Date.now() - startTime` observed at the point the result is built. -/
def checkWebsite (website : Website) (outcome : FetchOutcome)
    (elapsedMs : Nat) : UptimeCheck :=
  match outcome with
  | .completed ok status statusText =>
      { website_id := website.id
        status := if ok then .up else .down
        response_time := some elapsedMs
        status_code := some status
        error_message :=
          if ok then none
          else some ("HTTP " ++ toString status ++ " " ++ statusText) }
  | .threwError name message =>
      { website_id := website.id
        status := .error
        response_time := some elapsedMs
        status_code := none
        error_message :=
          some (if name == "AbortError" then "Request timeout (30s)" else message) }
  | .threwNonError =>
      { website_id := website.id
        status := .error
        response_time := some elapsedMs
        status_code := none
        error_message := some "Unknown error" }

/-- A fetch outcome that is a failure mode: a transport/timeout rejection,
or a completed response whose `ok` flag is false. -/
def isFailureOutcome : FetchOutcome → Bool
  | .completed ok _ _ => !ok
  | .threwError _ _ => true
  | .threwNonError => true

/-- C1: on a completed HTTP response, an ok status yields an `up` result with
the received code and no error message; a non-ok status yields a `down`
result with the received code and the non-empty message
`"HTTP <code> <reason>"`. -/
theorem checkWebsite_completed (website : Website) (ok : Bool) (status : Nat)
    (statusText : String) (elapsedMs : Nat) :
    checkWebsite website (.completed ok status statusText) elapsedMs =
      { website_id := website.id
        status := if ok then .up else .down
        response_time := some elapsedMs
        status_code := some status
        error_message :=
          if ok then none
          else some ("HTTP " ++ toString status ++ " " ++ statusText) } ∧
    0 < ("HTTP " ++ toString status ++ " " ++ statusText).length := by
  refine ⟨rfl, ?_⟩
  rw [String.length_append, String.length_append, String.length_append]
  have h : "HTTP ".length = 5 := by decide
  omega

/-- C2: on a rejected network call with a JavaScript `Error`, the result has
status `error`, no status code, the elapsed time as `response_time`, and
`error_message` equal to `"Request timeout (30s)"` when the rejection is the
abort of the 30-second timeout, and to the underlying error's message
otherwise. -/
theorem checkWebsite_threw (website : Website) (name message : String)
    (elapsedMs : Nat) :
    (checkWebsite website (.threwError name message) elapsedMs).status = .error ∧
    (checkWebsite website (.threwError name message) elapsedMs).status_code = none ∧
    (checkWebsite website (.threwError name message) elapsedMs).response_time =
      some elapsedMs ∧
    (checkWebsite website (.threwError name message) elapsedMs).error_message =
      some (if name == "AbortError" then "Request timeout (30s)" else message) := by
  exact ⟨rfl, rfl, rfl, rfl⟩

/-- C3: the prober is a total function — every fetch outcome yields an
`UptimeCheck` whose status is one of the three variants, and every failure
mode (timeout, transport error, non-ok response) yields `down` or `error`. -/
theorem checkWebsite_total (website : Website) (outcome : FetchOutcome)
    (elapsedMs : Nat) :
    ((checkWebsite website outcome elapsedMs).status = .up ∨
      (checkWebsite website outcome elapsedMs).status = .down ∨
      (checkWebsite website outcome elapsedMs).status = .error) ∧
    (isFailureOutcome outcome = true →
      (checkWebsite website outcome elapsedMs).status = .down ∨
      (checkWebsite website outcome elapsedMs).status = .error) := by
  constructor
  · cases h : (checkWebsite website outcome elapsedMs).status <;> simp
  · intro hfail
    match outcome with
    | .completed ok status statusText =>
        cases ok with
        | false => exact Or.inl rfl
        | true => simp [isFailureOutcome] at hfail
    | .threwError name message => exact Or.inr rfl
    | .threwNonError => exact Or.inr rfl

/-- Closed witness for `checkWebsite_total`: a transport failure is a
failure outcome and its check is classified `down` or `error`. -/
theorem checkWebsite_total_witness :
    isFailureOutcome .threwNonError = true ∧
    ((checkWebsite ⟨"w1", "n", "u", 300, true⟩ .threwNonError 5).status = .down ∨
      (checkWebsite ⟨"w1", "n", "u", 300, true⟩ .threwNonError 5).status = .error) :=
  ⟨rfl, (checkWebsite_total ⟨"w1", "n", "u", 300, true⟩ .threwNonError 5).2 rfl⟩

/-- The per-cycle summary object (index.ts lines 139-144). -/
structure Summary where
  total : Nat
  up : Nat
  down : Nat
  error : Nat
deriving DecidableEq, Repr

/-- The shapes of the object returned by `performUptimeChecks`
(index.ts lines 93-153), one constructor per `return` statement:
`{error: 'Failed to fetch websites', details}`,
`{message: 'No active websites found', allWebsites}`,
`{error: 'Failed to save check results', details}`,
`{success: true, summary}` and the catch-all
`{error: 'Unexpected error occurred', details}`. -/
inductive CycleResult where
  | fetchFailed (details : String)
  | noActive (allWebsites : List Website)
  | insertFailed (details : String)
  | success (summary : Summary)
  | unexpected (details : String)
deriving DecidableEq, Repr

/-- The outside world one cycle interacts with: the `websites` table (or a
read failure), the fetch outcome and observed elapsed time for each probed
website, the bulk-insert outcome, and any exception raised inside the `try`
block (captured by the catch-all). -/
structure CycleEnv where
  fetchResult : Except String (List Website)
  outcome : Website → FetchOutcome
  elapsed : Website → Nat
  insertErr : Option String
  thrown : Option String

/-- The rows the query `.from('websites').select('*').eq('is_active', true)`
returns from a table. -/
def activeWebsites (table : List Website) : List Website :=
  table.filter (fun w => w.is_active)

/-- The batch of results a cycle builds for a table
(index.ts lines 126-127). -/
def cycleResults (env : CycleEnv) (table : List Website) : List UptimeCheck :=
  (activeWebsites table).map
    (fun w => checkWebsite w (env.outcome w) (env.elapsed w))

/-- Number of results in a batch with a given status
(the `results.filter(r => r.status === s).length` expressions). -/
def countStatus (results : List UptimeCheck) (s : Status) : Nat :=
  (results.filter (fun r => r.status == s)).length

/-- Function `performUptimeChecks` (index.ts lines 93-153). Its entire body is inside
`try { ... } catch`, so a raised exception becomes the `unexpected` payload
and the function itself is total. -/
def performUptimeChecks (env : CycleEnv) : CycleResult :=
  match env.thrown with
  | some details => .unexpected details
  | none =>
    match env.fetchResult with
    | .error details => .fetchFailed details
    | .ok table =>
      if (activeWebsites table).isEmpty then .noActive table
      else
        let results := cycleResults env table
        match env.insertErr with
        | some details => .insertFailed details
        | none =>
          .success
            { total := results.length
              up := countStatus results .up
              down := countStatus results .down
              error := countStatus results .error }

/-- Every result's status is exactly one of the three variants, so the three
status counts partition the batch. -/
theorem countStatus_partition (results : List UptimeCheck) :
    countStatus results .up + countStatus results .down +
      countStatus results .error = results.length := by
  induction results with
  | nil => rfl
  | cons r rest ih =>
      cases h : r.status <;>
        simp [countStatus, List.filter_cons, h] at ih ⊢ <;> omega

/-- When the registry read succeeds and the cycle returns a success payload,
the summary is exactly the one built from the batch of results. -/
theorem success_summary_eq (env : CycleEnv) (table : List Website)
    (s : Summary) (hfetch : env.fetchResult = .ok table)
    (hs : performUptimeChecks env = .success s) :
    s = { total := (cycleResults env table).length
          up := countStatus (cycleResults env table) .up
          down := countStatus (cycleResults env table) .down
          error := countStatus (cycleResults env table) .error } := by
  unfold performUptimeChecks at hs
  cases hth : env.thrown with
  | some d => rw [hth] at hs; exact absurd hs (by simp)
  | none =>
      rw [hth, hfetch] at hs
      simp only at hs
      by_cases hemp : (activeWebsites table).isEmpty
      · rw [if_pos hemp] at hs; exact absurd hs (by simp)
      · rw [if_neg hemp] at hs
        cases hins : env.insertErr with
        | some d => simp only [hins] at hs; exact absurd hs (by simp)
        | none =>
            simp only [hins] at hs
            exact ((CycleResult.success.injEq _ _).mp hs.symm)

/-- C4: whenever the registry read succeeds and the cycle returns a success
summary, the summary's total is the number of active targets probed, each
count is the number of results with that status, and the three counts sum to
the total. -/
theorem performUptimeChecks_summary (env : CycleEnv) (table : List Website)
    (s : Summary) (hfetch : env.fetchResult = .ok table)
    (hs : performUptimeChecks env = .success s) :
    s.total = (activeWebsites table).length ∧
    s.up = countStatus (cycleResults env table) .up ∧
    s.down = countStatus (cycleResults env table) .down ∧
    s.error = countStatus (cycleResults env table) .error ∧
    s.up + s.down + s.error = s.total := by
  have h := success_summary_eq env table s hfetch hs
  subst h
  refine ⟨?_, rfl, rfl, rfl, ?_⟩
  · simp [cycleResults]
  · exact countStatus_partition (cycleResults env table)

/-- Scenario B environment: three active targets; the first times out, the
second answers 500, the third answers 200. -/
def scenarioBTable : List Website :=
  [⟨"w1", "a", "https://a", 300, true⟩,
   ⟨"w2", "b", "https://b", 300, true⟩,
   ⟨"w3", "c", "https://c", 300, true⟩]

/-- Scenario B cycle environment (registry read and bulk insert succeed). -/
def scenarioBEnv : CycleEnv where
  fetchResult := .ok scenarioBTable
  outcome := fun w =>
    if w.id == "w1" then .threwError "AbortError" "The signal has been aborted"
    else if w.id == "w2" then .completed false 500 "Internal Server Error"
    else .completed true 200 "OK"
  elapsed := fun _ => 42
  insertErr := none
  thrown := none

/-- Closed witness for `performUptimeChecks_summary` at scenario B:
the summary is `{total: 3, up: 1, down: 1, error: 1}` and satisfies the
claimed identities. -/
theorem performUptimeChecks_summary_witness :
    scenarioBEnv.fetchResult = .ok scenarioBTable ∧
    performUptimeChecks scenarioBEnv = .success ⟨3, 1, 1, 1⟩ ∧
    ((3 : Nat) = (activeWebsites scenarioBTable).length ∧
      (1 : Nat) = countStatus (cycleResults scenarioBEnv scenarioBTable) .up ∧
      (1 : Nat) = countStatus (cycleResults scenarioBEnv scenarioBTable) .down ∧
      (1 : Nat) = countStatus (cycleResults scenarioBEnv scenarioBTable) .error ∧
      1 + 1 + 1 = (3 : Nat)) :=
  ⟨rfl, rfl, performUptimeChecks_summary scenarioBEnv scenarioBTable ⟨3, 1, 1, 1⟩ rfl rfl⟩

/-- The prober stamps the probed website's own id on its result. -/
theorem checkWebsite_website_id (w : Website) (o : FetchOutcome) (t : Nat) :
    (checkWebsite w o t).website_id = w.id := by
  cases o <;> rfl

/-- The ids carried by a cycle's batch are exactly the ids of the active
websites. -/
theorem cycleResults_map_id (env : CycleEnv) (table : List Website) :
    (cycleResults env table).map UptimeCheck.website_id =
      (activeWebsites table).map Website.id := by
  simp [cycleResults, List.map_map, Function.comp_def, checkWebsite_website_id]

/-- C5: an inactive website (with the table's ids unique, as the primary key
guarantees) never has a check produced for it in a cycle, and the success
summary's total counts only active websites. -/
theorem inactive_never_checked (env : CycleEnv) (table : List Website)
    (w : Website) (hfetch : env.fetchResult = .ok table)
    (hnodup : (table.map Website.id).Nodup)
    (hmem : w ∈ table) (hinactive : w.is_active = false) :
    w.id ∉ (cycleResults env table).map UptimeCheck.website_id ∧
    ∀ s : Summary, performUptimeChecks env = .success s →
      s.total = (activeWebsites table).length := by
  constructor
  · rw [cycleResults_map_id]
    intro hin
    rcases List.mem_map.mp hin with ⟨w2, hw2mem, hw2id⟩
    have hw2table : w2 ∈ table := List.mem_of_mem_filter hw2mem
    have hw2act : w2.is_active = true := by
      simpa using List.of_mem_filter hw2mem
    have heq : w2 = w := List.inj_on_of_nodup_map hnodup hw2table hmem hw2id
    rw [heq, hinactive] at hw2act
    exact Bool.false_ne_true hw2act
  · intro s hs
    have h := success_summary_eq env table s hfetch hs
    subst h
    simp [cycleResults]

/-- A table with one inactive website among two active ones. -/
def mixedTable : List Website :=
  [⟨"w1", "a", "https://a", 300, true⟩,
   ⟨"w2", "b", "https://b", 300, false⟩,
   ⟨"w3", "c", "https://c", 300, true⟩]

/-- A cycle environment over `mixedTable` where every probe gets a 200. -/
def mixedEnv : CycleEnv where
  fetchResult := .ok mixedTable
  outcome := fun _ => .completed true 200 "OK"
  elapsed := fun _ => 10
  insertErr := none
  thrown := none

/-- Closed witness for `inactive_never_checked`: the inactive website `w2`
gets no check and the cycle total is 2, the number of active websites. -/
theorem inactive_never_checked_witness :
    mixedEnv.fetchResult = .ok mixedTable ∧
    (mixedTable.map Website.id).Nodup ∧
    (⟨"w2", "b", "https://b", 300, false⟩ : Website) ∈ mixedTable ∧
    (Website.is_active ⟨"w2", "b", "https://b", 300, false⟩ = false) ∧
    ("w2" ∉ (cycleResults mixedEnv mixedTable).map UptimeCheck.website_id ∧
      ∀ s : Summary, performUptimeChecks mixedEnv = .success s →
        s.total = (activeWebsites mixedTable).length) :=
  ⟨rfl, by decide, by simp [mixedTable], rfl,
    inactive_never_checked mixedEnv mixedTable ⟨"w2", "b", "https://b", 300, false⟩
      rfl (by decide) (by simp [mixedTable]) rfl⟩

/-- Does a cycle payload contain the `summary` object? (`{success, summary}`) -/
def CycleResult.hasSummary : CycleResult → Bool
  | .success _ => true
  | _ => false

/-- Is the cycle payload one of the `{error: ..., details}` objects? -/
def CycleResult.isErrPayload : CycleResult → Bool
  | .fetchFailed _ => true
  | .insertFailed _ => true
  | .unexpected _ => true
  | _ => false

/-- Is the cycle payload the informational
`{message: 'No active websites found', allWebsites}` object? -/
def CycleResult.isNoActiveMessage : CycleResult → Bool
  | .noActive _ => true
  | _ => false

/-- Body of the HTTP response built by `handler`: the `null` body of the
preflight branch, the JSON-serialized cycle payload of the 200 branch, or
the `{error: message}` object of the 500 catch branch. -/
inductive ResponseBody where
  | empty
  | json (result : CycleResult)
  | errJson (message : String)
deriving DecidableEq, Repr

/-- An HTTP response as `handler` builds it (status code and body). -/
structure HttpResponse where
  status : Nat
  body : ResponseBody
deriving DecidableEq, Repr

/-- Function `handler` (index.ts lines 155-188), parametrized by the outcome of
`await performUptimeChecks()`: a value, or a raised exception with its
message (the catch branch turns the latter into a 500). -/
def handlerWith (method : String) (cycle : Except String CycleResult) :
    HttpResponse :=
  if method == "OPTIONS" then { status := 200, body := .empty }
  else
    match cycle with
    | .ok result => { status := 200, body := .json result }
    | .error e => { status := 500, body := .errJson e }

/-- The deployed `handler`: `performUptimeChecks` is a total function (its
whole body sits inside `try { ... } catch`), so the awaited computation
always yields a value and never an exception. -/
def handler (method : String) (env : CycleEnv) : HttpResponse :=
  handlerWith method (.ok (performUptimeChecks env))

/-- C10: every non-OPTIONS request gets status 200, with the cycle payload —
success or failure — serialized into the body; the 500 catch branch of
`handler` is unreachable because `performUptimeChecks` never throws. -/
theorem handler_always_200 (method : String) (env : CycleEnv)
    (hm : method ≠ "OPTIONS") :
    (handler method env).status = 200 ∧
    (handler method env).body = .json (performUptimeChecks env) := by
  have hb : (method == "OPTIONS") = false := by
    simpa using hm
  simp [handler, handlerWith, hb]

/-- A cycle environment whose registry read fails. -/
def fetchFailEnv : CycleEnv where
  fetchResult := .error "boom"
  outcome := fun _ => .threwNonError
  elapsed := fun _ => 0
  insertErr := none
  thrown := none

/-- Closed witness for `handler_always_200`: a failed registry read is still
answered with status 200 and the error payload in the body. -/
theorem handler_always_200_witness :
    ("POST" : String) ≠ "OPTIONS" ∧
    ((handler "POST" fetchFailEnv).status = 200 ∧
      (handler "POST" fetchFailEnv).body =
        .json (performUptimeChecks fetchFailEnv)) :=
  ⟨by decide, handler_always_200 "POST" fetchFailEnv (by decide)⟩

/-- A cycle environment whose registry read succeeds with no websites at
all, so the active list is empty. -/
def emptyRegistryEnv : CycleEnv where
  fetchResult := .ok []
  outcome := fun _ => .threwNonError
  elapsed := fun _ => 0
  insertErr := none
  thrown := none

/-- C9 counterexample: on a non-OPTIONS request with an empty active-target
list, the response body is the `{message: 'No active websites found', ...}`
payload, which contains no summary and is not an error payload — refuting
the claim that the body is always one of those two. -/
theorem trigger_payload_dichotomy_cex :
    ("POST" : String) ≠ "OPTIONS" ∧
    (handler "POST" emptyRegistryEnv).body =
      ResponseBody.json (CycleResult.noActive []) ∧
    (CycleResult.noActive []).hasSummary = false ∧
    (CycleResult.noActive []).isErrPayload = false :=
  ⟨by decide, rfl, rfl, rfl⟩

/-- C9 amended: on every non-OPTIONS request, the JSON body is a payload
containing a summary, an error payload, or — exactly when the active-target
list is empty — the informational no-active-websites message payload. -/
theorem trigger_payload_shapes (method : String) (env : CycleEnv)
    (r : CycleResult) (hm : method ≠ "OPTIONS")
    (hbody : (handler method env).body = .json r) :
    (r.hasSummary || r.isErrPayload || r.isNoActiveMessage) = true := by
  have hb : (method == "OPTIONS") = false := by
    simpa using hm
  simp [handler, handlerWith, hb] at hbody
  cases hr : performUptimeChecks env <;> rw [hr] at hbody <;> subst hbody <;> rfl

/-- Closed witness for `trigger_payload_shapes` at the empty-registry
environment. -/
theorem trigger_payload_shapes_witness :
    ("POST" : String) ≠ "OPTIONS" ∧
    (handler "POST" emptyRegistryEnv).body =
      ResponseBody.json (CycleResult.noActive []) ∧
    ((CycleResult.noActive []).hasSummary ||
      (CycleResult.noActive []).isErrPayload ||
      (CycleResult.noActive []).isNoActiveMessage) = true :=
  ⟨by decide, rfl,
    trigger_payload_shapes "POST" emptyRegistryEnv (CycleResult.noActive [])
      (by decide) rfl⟩

def msPerHour : Int := 3600000

def msPerDay : Int := 86400000

/-- A row of `uptime_checks` as the UI components see it (the `UptimeCheck`
interface of WebsiteStatusCard.tsx / UptimeChart.tsx). `status` is an
untyped string there; `checked_at` is the epoch-millisecond value of
`new Date(check.checked_at).getTime()`. -/
structure UiCheck where
  id : String
  status : String
  response_time : Option Nat
  status_code : Option Nat
  error_message : Option String
  checked_at : Int
deriving DecidableEq, Repr

/-- Evaluation of `Math.round(num / den)` for nonnegative integers (`den > 0`): round half
away from zero, i.e. `⌊num/den + 1/2⌋`. -/
def jsRound (num den : Nat) : Nat := (2 * num + den) / (2 * den)

/-- JavaScript truthiness of the optional `response_time` field: both
`undefined` and `0` are falsy. -/
def truthyRt : Option Nat → Bool
  | none => false
  | some n => n != 0

/-- Function `getUptimePercentage` (WebsiteStatusCard.tsx lines 98-113): `checks` is
the website's `uptime_checks` array and `nowMs` the value of `Date.now()`;
`null` ("no data") is `none`. -/
def getUptimePercentage (checks : List UiCheck) (nowMs : Int) : Option Nat :=
  if checks.isEmpty then none
  else
    let last24Hours :=
      checks.filter (fun c => decide (nowMs - 24 * msPerHour < c.checked_at))
    if last24Hours.isEmpty then none
    else
      some (jsRound
        (100 * (last24Hours.filter (fun c => c.status == "up")).length)
        last24Hours.length)

/-- The rolling-uptime computation as claim C6 words it: filter to results
with `checkedAt` in the half-open interval `[now - window, now)` (window =
24 hours); "no data" if the filtered set is empty, else
`round(100 * countUp / countFiltered)`. -/
def claimRollingUptime (checks : List UiCheck) (nowMs : Int) : Option Nat :=
  let inWindow := checks.filter
    (fun c => decide (nowMs - 24 * msPerHour ≤ c.checked_at ∧ c.checked_at < nowMs))
  if inWindow.isEmpty then none
  else
    some (jsRound
      (100 * (inWindow.filter (fun c => c.status == "up")).length)
      inWindow.length)

/-- C6 counterexample: a single `up` check stamped exactly at `now` is
outside the claim's half-open window `[now - 24h, now)` (so the claim gives
"no data") but inside the code's filter `checkedAt > now - 24h`, which has
no upper bound (so the code gives 100%). -/
theorem getUptimePercentage_cex :
    getUptimePercentage
        [⟨"c1", "up", some 5, some 200, none, 1700000000000⟩] 1700000000000 =
      some 100 ∧
    claimRollingUptime
        [⟨"c1", "up", some 5, some 200, none, 1700000000000⟩] 1700000000000 =
      none ∧
    getUptimePercentage
        [⟨"c1", "up", some 5, some 200, none, 1700000000000⟩] 1700000000000 ≠
      claimRollingUptime
        [⟨"c1", "up", some 5, some 200, none, 1700000000000⟩] 1700000000000 := by
  refine ⟨by decide, by decide, by decide⟩

/-- The rolling-uptime computation amended only as the counterexample
forces: the filter keeps results with `checkedAt` strictly above
`now - window` with no upper bound. -/
def amendedRollingUptime (checks : List UiCheck) (nowMs : Int) : Option Nat :=
  let recent :=
    checks.filter (fun c => decide (nowMs - 24 * msPerHour < c.checked_at))
  if recent.isEmpty then none
  else
    some (jsRound
      (100 * (recent.filter (fun c => c.status == "up")).length)
      recent.length)

/-- C6 amended: the code's rolling uptime equals the amended specification
(strict lower bound `now - 24h`, no upper bound, "no data" on an empty
filtered set), and a target with no results at all reports "no data". -/
theorem getUptimePercentage_eq_amended (checks : List UiCheck) (nowMs : Int) :
    getUptimePercentage checks nowMs = amendedRollingUptime checks nowMs ∧
    getUptimePercentage [] nowMs = none := by
  refine ⟨?_, rfl⟩
  cases checks with
  | nil => rfl
  | cons c rest => rfl

/-- Function `getAverageResponseTime` (WebsiteStatusCard.tsx lines 115-128): `checks`
is the website's `uptime_checks` array, ordered newest-first; the JS filter
`check.response_time && check.status === 'up'` uses truthiness, and
`.slice(0, 10)` keeps the first ten filtered entries. -/
def getAverageResponseTime (checks : List UiCheck) : Option Nat :=
  if checks.isEmpty then none
  else
    let recentChecks :=
      (checks.filter
        (fun c => truthyRt c.response_time && c.status == "up")).take 10
    if recentChecks.isEmpty then none
    else
      some (jsRound
        (recentChecks.foldl (fun acc c => acc + c.response_time.getD 0) 0)
        recentChecks.length)

/-- The rolling-average-latency computation as claim C7 words it: the most
recent ten results with status `up` and a present `responseTimeMs`; "no
data" if there are none, else their arithmetic mean rounded to nearest
integer. -/
def claimAverageResponseTime (checks : List UiCheck) : Option Nat :=
  let recent :=
    (checks.filter
      (fun c => c.response_time.isSome && c.status == "up")).take 10
  if recent.isEmpty then none
  else
    some (jsRound
      (recent.foldl (fun acc c => acc + c.response_time.getD 0) 0)
      recent.length)

/-- C7 counterexample: an `up` check with a present latency of 0 ms. The
claim keeps it ("present `responseTimeMs`") and reports a mean of 0 ms; the
code's truthiness test drops it and reports "no data". -/
theorem getAverageResponseTime_cex :
    getAverageResponseTime [⟨"c1", "up", some 0, some 200, none, 0⟩] = none ∧
    claimAverageResponseTime [⟨"c1", "up", some 0, some 200, none, 0⟩] =
      some 0 ∧
    getAverageResponseTime [⟨"c1", "up", some 0, some 200, none, 0⟩] ≠
      claimAverageResponseTime [⟨"c1", "up", some 0, some 200, none, 0⟩] := by
  refine ⟨by decide, by decide, by decide⟩

/-- The rolling-average-latency computation amended only as the
counterexample forces: the filter keeps results with status `up` whose
`responseTimeMs` is present and nonzero. -/
def amendedAverageResponseTime (checks : List UiCheck) : Option Nat :=
  let recent :=
    (checks.filter
      (fun c => c.response_time.getD 0 != 0 && c.status == "up")).take 10
  if recent.isEmpty then none
  else
    some (jsRound
      (recent.foldl (fun acc c => acc + c.response_time.getD 0) 0)
      recent.length)

/-- C7 amended: the code's rolling average latency equals the amended
specification (most recent ten `up` results with a present nonzero latency,
"no data" when there are none, else the mean rounded to nearest integer),
and a target with no results at all reports "no data". -/
theorem getAverageResponseTime_eq_amended (checks : List UiCheck) :
    getAverageResponseTime checks = amendedAverageResponseTime checks ∧
    getAverageResponseTime [] = none := by
  refine ⟨?_, rfl⟩
  have hfilter :
      checks.filter (fun c => truthyRt c.response_time && c.status == "up") =
        checks.filter
          (fun c => c.response_time.getD 0 != 0 && c.status == "up") := by
    apply List.filter_congr
    intro c _
    cases hc : c.response_time <;> simp [truthyRt, hc]
  cases checks with
  | nil => rfl
  | cons c rest =>
      simp only [getAverageResponseTime, amendedAverageResponseTime,
        List.isEmpty_cons, Bool.false_eq_true, if_false, hfilter]

/-- Model of `Date#getHours` for a runtime whose local timezone is UTC: the
hour-of-day number of an epoch-millisecond timestamp. -/
def getHoursJs (t : Int) : Int := (t.fdiv msPerHour).emod 24

/-- Days since the epoch of an epoch-millisecond timestamp (UTC midnight
cut). -/
def epochDay (t : Int) : Int := t.fdiv msPerDay

/-- Gregorian civil date (year, month, day) of a count of days since
1970-01-01, by the standard era-based conversion. -/
def civilFromDays (z0 : Int) : Int × Int × Int :=
  let z := z0 + 719468
  let era := z.fdiv 146097
  let doe := z - era * 146097
  let yoe := (doe - doe.fdiv 1460 + doe.fdiv 36524 - doe.fdiv 146096).fdiv 365
  let y := yoe + era * 400
  let doy := doe - (365 * yoe + yoe.fdiv 4 - yoe.fdiv 100)
  let mp := (5 * doy + 2).fdiv 153
  let d := doy - (153 * mp + 2).fdiv 5 + 1
  let m := mp + (if mp < 10 then 3 else -9)
  (y + (if m ≤ 2 then 1 else 0), m, d)

/-- Model of `Date#getDate` (day of month, 1-31) in UTC. -/
def getDateJs (t : Int) : Int := (civilFromDays (epochDay t)).2.2

/-- The full civil date triple of a timestamp, for the claim's "same
calendar day" comparison. -/
def civilDateJs (t : Int) : Int × Int × Int := civilFromDays (epochDay t)

/-- One entry of the array `getChartData` returns (UptimeChart.tsx lines
63-71), minus the purely cosmetic label string: the bucket's reference
timestamp and its aggregates (`null` is `none`). -/
structure ChartBucket where
  timeMs : Int
  uptime : Option Nat
  up : Nat
  down : Nat
  error : Nat
  total : Nat
  avgResponseTime : Option Nat
deriving DecidableEq, Repr

/-- The `reduce((sum, c, _, arr) => sum + rt / arr.length, 0)` expression in
exact arithmetic: the division by the constant length distributes, so the
float accumulator equals `(Σ rt) / length`; this is the numerator. -/
def rtSum (l : List UiCheck) : Nat :=
  l.foldl (fun acc c => acc + c.response_time.getD 0) 0

/-- Bucket `i` (0-23) of `getChartData` (UptimeChart.tsx lines 39-72):
reference timestamp `now - (23 - i)` hours; a check is counted when its
hour-of-day equals the bucket's and its `getDate()` (day of month) equals
the bucket's. The code exposes `avgResponseTime` only when the computed
average is `> 0`, which in exact arithmetic means the summed latency is
positive. -/
def chartBucket (allChecks : List UiCheck) (nowMs : Int) (i : Nat) :
    ChartBucket :=
  let time := nowMs - (23 - (i : Int)) * msPerHour
  let hourChecks := allChecks.filter (fun c =>
    getHoursJs c.checked_at == getHoursJs time &&
      getDateJs c.checked_at == getDateJs time)
  let upCount := (hourChecks.filter (fun c => c.status == "up")).length
  let rtChecks :=
    hourChecks.filter (fun c => truthyRt c.response_time && c.status == "up")
  { timeMs := time
    uptime :=
      if 0 < hourChecks.length
      then some (jsRound (100 * upCount) hourChecks.length) else none
    up := upCount
    down := (hourChecks.filter (fun c => c.status == "down")).length
    error := (hourChecks.filter (fun c => c.status == "error")).length
    total := hourChecks.length
    avgResponseTime :=
      if 0 < rtSum rtChecks
      then some (jsRound (rtSum rtChecks) rtChecks.length) else none }

/-- Function `getChartData` (UptimeChart.tsx lines 29-75): 24 buckets, oldest first;
`allChecks` is the flattened `uptime_checks` of all websites. -/
def getChartData (allChecks : List UiCheck) (nowMs : Int) : List ChartBucket :=
  (List.range 24).map (chartBucket allChecks nowMs)

/-- One bucket as claim C8 words it: a result is counted iff it has the same
hour-of-day number and the same calendar day (the full civil date) as the
bucket's reference timestamp; `avgResponseTimeMs` is the mean over `up`
results with a present latency, "no data" when there are none. -/
def claimChartBucket (allChecks : List UiCheck) (nowMs : Int) (i : Nat) :
    ChartBucket :=
  let time := nowMs - (23 - (i : Int)) * msPerHour
  let hourChecks := allChecks.filter (fun c =>
    getHoursJs c.checked_at == getHoursJs time &&
      civilDateJs c.checked_at == civilDateJs time)
  let upCount := (hourChecks.filter (fun c => c.status == "up")).length
  let rtChecks :=
    hourChecks.filter (fun c => c.response_time.isSome && c.status == "up")
  { timeMs := time
    uptime :=
      if 0 < hourChecks.length
      then some (jsRound (100 * upCount) hourChecks.length) else none
    up := upCount
    down := (hourChecks.filter (fun c => c.status == "down")).length
    error := (hourChecks.filter (fun c => c.status == "error")).length
    total := hourChecks.length
    avgResponseTime :=
      if rtChecks.isEmpty then none
      else some (jsRound (rtSum rtChecks) rtChecks.length) }

/-- The hourly series as claim C8 words it. -/
def claimChartData (allChecks : List UiCheck) (nowMs : Int) : List ChartBucket :=
  (List.range 24).map (claimChartBucket allChecks nowMs)

/-- C8 counterexample: one `up` check at 2024-01-31T12:00Z charted at
`now` = 2024-03-31T12:30Z. The check's hour-of-day (12) and day-of-month
(31) match the newest bucket's even though it is two months old, so the
code counts it there; under the claim's "same calendar day" reading no
bucket counts it, and the two series differ. -/
theorem getChartData_cex :
    getChartData [⟨"c1", "up", some 100, some 200, none, 1706702400000⟩]
        1711888200000 ≠
      claimChartData [⟨"c1", "up", some 100, some 200, none, 1706702400000⟩]
        1711888200000 := by
  decide

/-- One bucket as the counterexample forces the claim to be amended: the
matching is by hour-of-day number and day-of-month number (not full
calendar day), and `avgResponseTimeMs` averages the `up` results with a
present nonzero latency, "no data" when there are none. -/
def amendedChartBucket (allChecks : List UiCheck) (nowMs : Int) (i : Nat) :
    ChartBucket :=
  let time := nowMs - (23 - (i : Int)) * msPerHour
  let hourChecks := allChecks.filter (fun c =>
    getHoursJs c.checked_at == getHoursJs time &&
      getDateJs c.checked_at == getDateJs time)
  let upCount := (hourChecks.filter (fun c => c.status == "up")).length
  let rtChecks :=
    hourChecks.filter (fun c => c.response_time.getD 0 != 0 && c.status == "up")
  { timeMs := time
    uptime :=
      if 0 < hourChecks.length
      then some (jsRound (100 * upCount) hourChecks.length) else none
    up := upCount
    down := (hourChecks.filter (fun c => c.status == "down")).length
    error := (hourChecks.filter (fun c => c.status == "error")).length
    total := hourChecks.length
    avgResponseTime :=
      if rtChecks.isEmpty then none
      else some (jsRound (rtSum rtChecks) rtChecks.length) }

/-- The hourly series under the amended claim. -/
def amendedChartData (allChecks : List UiCheck) (nowMs : Int) :
    List ChartBucket :=
  (List.range 24).map (amendedChartBucket allChecks nowMs)

/-- The truthiness filter on latency equals the present-and-nonzero
filter. -/
theorem rtFilter_eq (l : List UiCheck) :
    l.filter (fun c => truthyRt c.response_time && c.status == "up") =
      l.filter (fun c => c.response_time.getD 0 != 0 && c.status == "up") := by
  apply List.filter_congr
  intro c _
  cases hc : c.response_time <;> simp [truthyRt, hc]

/-- Folding latency sums onto an accumulator never decreases it. -/
theorem le_foldl_rt (l : List UiCheck) (a : Nat) :
    a ≤ l.foldl (fun acc c => acc + c.response_time.getD 0) a := by
  induction l generalizing a with
  | nil => exact Nat.le_refl a
  | cons c t ih =>
      exact Nat.le_trans (Nat.le_add_right a _) (ih (a + c.response_time.getD 0))

/-- When every kept latency is nonzero, the code's `avg > 0` guard agrees
with the claim-style "no data when the filtered set is empty" guard. -/
theorem avg_guard_eq (l : List UiCheck)
    (h : ∀ c ∈ l, c.response_time.getD 0 ≠ 0) :
    (if 0 < rtSum l then some (jsRound (rtSum l) l.length) else none) =
      (if l.isEmpty then none
        else some (jsRound (rtSum l) l.length)) := by
  cases l with
  | nil => rfl
  | cons c t =>
      have h1 : c.response_time.getD 0 ≠ 0 := h c (by simp)
      have h2 : c.response_time.getD 0 ≤ rtSum (c :: t) := by
        simpa [rtSum, List.foldl_cons] using
          le_foldl_rt t (0 + c.response_time.getD 0)
      have hpos : 0 < rtSum (c :: t) := by omega
      rw [if_pos hpos]
      rfl

/-- Each bucket of the code equals the amended-claim bucket. -/
theorem chartBucket_eq_amended (ac : List UiCheck) (nowMs : Int) (i : Nat) :
    chartBucket ac nowMs i = amendedChartBucket ac nowMs i := by
  unfold chartBucket amendedChartBucket
  simp only [rtFilter_eq, ChartBucket.mk.injEq, true_and, and_true]
  apply avg_guard_eq
  intro c hc
  have := List.of_mem_filter hc
  simp only [Bool.and_eq_true, bne_iff_ne, ne_eq] at this
  exact this.1

/-- The reference timestamp of bucket `i`. -/
theorem chartBucket_timeMs (ac : List UiCheck) (nowMs : Int) (i : Nat) :
    (chartBucket ac nowMs i).timeMs = nowMs - (23 - (i : Int)) * msPerHour :=
  rfl

/-- C8 amended: the hourly series equals the amended specification (bucket
membership by hour-of-day and day-of-month numbers, latency average over
`up` results with a present nonzero latency), has exactly 24 buckets, and
its reference timestamps — `now - (23 - i)` hours — strictly increase, so
the buckets run oldest-to-newest over the 24 hours ending at `now`. -/
theorem getChartData_eq_amended (ac : List UiCheck) (nowMs : Int) :
    getChartData ac nowMs = amendedChartData ac nowMs ∧
    (getChartData ac nowMs).length = 24 ∧
    ((getChartData ac nowMs).map ChartBucket.timeMs).Pairwise (· < ·) := by
  refine ⟨?_, by simp [getChartData], ?_⟩
  · unfold getChartData amendedChartData
    exact List.map_congr_left (fun i _ => chartBucket_eq_amended ac nowMs i)
  · unfold getChartData
    rw [List.map_map, List.pairwise_map]
    have hr : (List.range 24).Pairwise (· < ·) := by decide
    refine hr.imp ?_
    intro a b hab
    show (chartBucket ac nowMs a).timeMs < (chartBucket ac nowMs b).timeMs
    rw [chartBucket_timeMs, chartBucket_timeMs]
    simp only [msPerHour]
    omega

end UptimeMonitor
